import Mathlib

/-!
# PlainView core pipeline — verification development

Shallow embedding of the PlainView API core modules:

* `services/api/src/modules/flowiq.ts` — telemetry ingestion and anomaly
  detection (`detectAnomalies`, `ingestFlowTelemetry`, the simulated
  generator step of `registerFlowIQ`);
* `services/api/src/modules/incidents.ts` — alert correlation and incident
  lifecycle (`correlateAlerts`, `handleAlert`, the update and timeline
  routes);
* `services/api/src/modules/missions-lite.ts` — mission playback state
  machine routes;
* the ROS2 bridge (`ROS2Bridge`: `subscribeTelemetry` tick body,
  `publishCommand`, `markNodeOffline`, `startHeartbeatMonitor` tick body);
* the process-wide event bus (`bus = new EventEmitter()` in the SSE module)
  with the dispatch semantics of Node.js `events.EventEmitter`.

Modelling conventions:

* JS numbers are modelled as `ℚ` (threshold logic is exact in the source:
  no float-rounding-sensitive comparisons are claimed); timestamps
  (`Date.now()` milliseconds, and ISO strings that the source converts back
  with `new Date(s).getTime()`) are modelled as `ℤ` milliseconds and passed
  explicitly where the source reads the ambient clock;
* `uuid()` / `Math.random()` results are passed explicitly as parameters;
* JS `Map` (insertion-ordered; `Array.from(m.values())` iterates in
  insertion order) is modelled as an association `List` keeping insertion
  order, with `set` of a fresh key appending at the end and `set` of an
  existing key replacing in place;
* `Array.prototype.sort` is modelled as an in-place stable sort (a stable
  insertion sort — every stable sort under the same comparator produces the
  identical list, so this matches ECMAScript's required stable sort);
* `bus.emit` output is collected into an event-trace list.
-/

/-! ## Shared event model (sse.ts `PlainviewEvent`, restricted to the
fields the claims observe) -/

inductive Sev3 where
  | low | medium | high
deriving DecidableEq, Repr

/-- Events observed on the process bus, restricted to the payload fields the
claims are about. -/
inductive BusEvent where
  | anomalyDetected (anomalyType : String) (confidence : ℚ) (at_ : ℤ)
  | flowMetricsUpdated
  | incidentCreated (incidentId : ℕ) (severity : String)
  | incidentUpdated (incidentId : ℕ)
  | missionStarted (missionId : String) (at_ : ℤ)
  | missionCompleted (missionId : String) (at_ : ℤ)
  | ros2Telemetry (nodeId topic : String) (at_ : ℤ)
  | ros2NodeDiscovered (nodeId : String) (at_ : ℤ)
  | ros2NodeOffline (nodeId : String) (at_ : ℤ)
deriving DecidableEq, Repr

/-! ## FlowIQ (`services/api/src/modules/flowiq.ts`)

`FlowMetrics` is `{ flowRateLpm, pressurePa, temperatureC, timestamp }`.
`FlowAnomaly`'s `id` and `detectedAt` fields are produced from the ambient
clock and `Math.random()`; they are not modelled (no claim observes them).
-/

structure FlowMetrics where
  flowRateLpm : ℚ
  pressurePa : ℚ
  temperatureC : ℚ
  timestamp : ℤ
deriving DecidableEq, Repr

inductive AnomalyType where
  | flow_rate_deviation | pressure_deviation | temperature_spike
deriving DecidableEq, Repr

structure FlowAnomaly where
  atype : AnomalyType
  severity : Sev3
  expectedMin : ℚ
  expectedMax : ℚ
  actualValue : ℚ
deriving DecidableEq, Repr

/-- `baselineMetrics` from flowiq.ts (its `timestamp` is the module-load
instant; modelled as 0). -/
def baselineMetrics : FlowMetrics :=
  { flowRateLpm := 150, pressurePa := 2500000, temperatureC := 45, timestamp := 0 }

/-- Module state of flowiq.ts: `metricsHistory`, `anomalyHistory`,
`ros2Active`. -/
structure FlowState where
  metricsHistory : List FlowMetrics
  anomalyHistory : List FlowAnomaly
  ros2Active : Bool
deriving DecidableEq, Repr

def FlowState.init : FlowState :=
  { metricsHistory := [], anomalyHistory := [], ros2Active := false }

/-- JS `arr.slice(-10)`: the last (at most) 10 elements. -/
def lastTen (l : List FlowMetrics) : List FlowMetrics :=
  l.drop (l.length - 10)

/-- `recent.reduce((sum, m) => sum + m.f, 0) / recent.length` — the
arithmetic mean of one metric over the window. -/
def avgOf (recent : List FlowMetrics) (f : FlowMetrics → ℚ) : ℚ :=
  (recent.map f).sum / (recent.length : ℚ)

/-- `detectAnomalies(current)` from flowiq.ts.  It reads the module-level
`metricsHistory` (passed here explicitly), takes `recent = slice(-10)`, and
once `recent.length >= 3` runs the three threshold checks against the
arithmetic means over `recent`. -/
def detectAnomalies (metricsHistory : List FlowMetrics) (current : FlowMetrics) :
    List FlowAnomaly :=
  let recent := lastTen metricsHistory
  if recent.length ≥ 3 then
    let avgFlow := avgOf recent FlowMetrics.flowRateLpm
    let flowDeviation := |current.flowRateLpm - avgFlow|
    let flowAnoms :=
      if flowDeviation > avgFlow * (1/4) then
        [{ atype := .flow_rate_deviation,
           severity := if flowDeviation > avgFlow * (1/2) then .high else .medium,
           expectedMin := avgFlow * (3/4), expectedMax := avgFlow * (5/4),
           actualValue := current.flowRateLpm }]
      else []
    let avgPressure := avgOf recent FlowMetrics.pressurePa
    let pressureDeviation := |current.pressurePa - avgPressure|
    let pressureAnoms :=
      if pressureDeviation > 100000 then
        [{ atype := .pressure_deviation,
           severity := if pressureDeviation > 200000 then .high else .low,
           expectedMin := avgPressure - 100000, expectedMax := avgPressure + 100000,
           actualValue := current.pressurePa }]
      else []
    let avgTemp := avgOf recent FlowMetrics.temperatureC
    let tempDeviation := |current.temperatureC - avgTemp|
    let tempAnoms :=
      if tempDeviation > 10 then
        [{ atype := .temperature_spike,
           severity := if tempDeviation > 20 then .high else .medium,
           expectedMin := avgTemp - 5, expectedMax := avgTemp + 5,
           actualValue := current.temperatureC }]
      else []
    flowAnoms ++ pressureAnoms ++ tempAnoms
  else []

/-- The partial sample accepted by `ingestFlowTelemetry` (missing fields fall
back to the last history entry, or to `baselineMetrics` when the history is
empty). -/
structure SamplePartial where
  flowRateLpm : Option ℚ
  pressurePa : Option ℚ
  temperatureC : Option ℚ
  timestamp : ℤ
deriving DecidableEq, Repr

/-- A fully-specified sample, as most call sites supply. -/
def SamplePartial.full (f p t : ℚ) (ts : ℤ) : SamplePartial :=
  { flowRateLpm := some f, pressurePa := some p, temperatureC := some t,
    timestamp := ts }

/-- The `confidence` field of the `anomaly.detected` bus event:
`anom.severity === "high" ? 0.95 : 0.7`. -/
def anomalyConfidence (s : Sev3) : ℚ := if s = .high then 95/100 else 7/10

/-- The `current` record built by `ingestFlowTelemetry`: each missing sample
field falls back to `metricsHistory[metricsHistory.length - 1] ||
baselineMetrics`. -/
def currentOf (sample : SamplePartial) (st : FlowState) : FlowMetrics :=
  let last := st.metricsHistory.getLast?.getD baselineMetrics
  { flowRateLpm := sample.flowRateLpm.getD last.flowRateLpm,
    pressurePa := sample.pressurePa.getD last.pressurePa,
    temperatureC := sample.temperatureC.getD last.temperatureC,
    timestamp := sample.timestamp }

/-- `metricsHistory` after `push(current)` followed by
`if (metricsHistory.length > 100) metricsHistory.shift()`. -/
def postHistory (sample : SamplePartial) (st : FlowState) : List FlowMetrics :=
  let hist0 := st.metricsHistory ++ [currentOf sample st]
  if hist0.length > 100 then hist0.drop 1 else hist0

/-- The `anomaly.detected` bus event emitted for one produced anomaly. -/
def anomalyEvent (now : ℤ) (a : FlowAnomaly) : BusEvent :=
  BusEvent.anomalyDetected
    (match a.atype with
     | .flow_rate_deviation => "flow_rate_deviation"
     | .pressure_deviation => "pressure_deviation"
     | .temperature_spike => "temperature_spike")
    (anomalyConfidence a.severity) now

/-- `ingestFlowTelemetry(sample)` from flowiq.ts: set `ros2Active`, build
`current` with `??` fallbacks, push onto `metricsHistory` (evicting the
oldest entry when the length exceeds 100), run `detectAnomalies` on the
post-push history, append each anomaly to `anomalyHistory` and emit an
`anomaly.detected` event for it, then emit `flow.metrics.updated`.
(`db.insertMetric` is external persistence, out of the modelled state.) -/
def ingestFlowTelemetry (now : ℤ) (sample : SamplePartial) (st : FlowState) :
    FlowState × List BusEvent :=
  let current := currentOf sample st
  let hist := postHistory sample st
  let anomalies := detectAnomalies hist current
  ({ metricsHistory := hist,
     anomalyHistory := st.anomalyHistory ++ anomalies,
     ros2Active := true },
   anomalies.map (anomalyEvent now) ++ [BusEvent.flowMetricsUpdated])

/-- One tick of `registerFlowIQ`'s 5-second simulated collection interval:
skipped entirely when `ros2Active`; otherwise pushes a noisy sample around
`baselineMetrics` (the three `Math.random()` draws are the `noise`
parameters), with the same bounded push, detection, append and emission as
ingestion. -/
def generatorStep (now : ℤ) (noiseFlow noisePressure noiseTemp : ℚ)
    (st : FlowState) : FlowState × List BusEvent :=
  if st.ros2Active then (st, [])
  else
    let current : FlowMetrics :=
      { flowRateLpm := max 100 (baselineMetrics.flowRateLpm + noiseFlow),
        pressurePa := max 2300000 (baselineMetrics.pressurePa + noisePressure),
        temperatureC := max 20 (baselineMetrics.temperatureC + noiseTemp),
        timestamp := now }
    let hist0 := st.metricsHistory ++ [current]
    let hist := if hist0.length > 100 then hist0.drop 1 else hist0
    let anomalies := detectAnomalies hist current
    ({ metricsHistory := hist,
       anomalyHistory := st.anomalyHistory ++ anomalies,
       ros2Active := false },
     anomalies.map (anomalyEvent now) ++ [BusEvent.flowMetricsUpdated])

/-- The input sequence for the anomaly-history bound refutation: strictly
alternating extreme samples (each one, once three samples are in the window,
trips all three detectors at once). -/
def altSample (k : ℕ) : SamplePartial :=
  if k % 2 = 0 then SamplePartial.full 100 0 0 0
  else SamplePartial.full 1000 1000000 1000 0

/-- `n` successive `ingestFlowTelemetry` calls on the alternating samples,
starting from the module-initial state. -/
def altIngestRun : ℕ → FlowState
  | 0 => FlowState.init
  | n + 1 => (ingestFlowTelemetry 0 (altSample n) (altIngestRun n)).1

/-- **C3** (claim theorem): once the post-push rolling window (the last 10
history samples, which include the just-ingested one) holds at least 3
samples, a flow reading deviating from the window's mean flow by more than
a quarter of that mean yields a `flow_rate_deviation` anomaly in the anomaly
history — `high` when the deviation exceeds half the mean, `medium`
otherwise — and an `anomaly.detected` bus event with confidence 0.95 for
`high` and 0.7 otherwise. -/
theorem flowiq_flow_deviation_anomaly (now : ℤ) (sample : SamplePartial)
    (st : FlowState)
    (hlen : 3 ≤ (lastTen (postHistory sample st)).length)
    (hdev : |(currentOf sample st).flowRateLpm -
              avgOf (lastTen (postHistory sample st)) FlowMetrics.flowRateLpm| >
            avgOf (lastTen (postHistory sample st)) FlowMetrics.flowRateLpm * (1/4)) :
    (⟨AnomalyType.flow_rate_deviation,
      if |(currentOf sample st).flowRateLpm -
           avgOf (lastTen (postHistory sample st)) FlowMetrics.flowRateLpm| >
          avgOf (lastTen (postHistory sample st)) FlowMetrics.flowRateLpm * (1/2)
        then Sev3.high else Sev3.medium,
      avgOf (lastTen (postHistory sample st)) FlowMetrics.flowRateLpm * (3/4),
      avgOf (lastTen (postHistory sample st)) FlowMetrics.flowRateLpm * (5/4),
      (currentOf sample st).flowRateLpm⟩ : FlowAnomaly) ∈
      (ingestFlowTelemetry now sample st).1.anomalyHistory ∧
    BusEvent.anomalyDetected "flow_rate_deviation"
      (if |(currentOf sample st).flowRateLpm -
            avgOf (lastTen (postHistory sample st)) FlowMetrics.flowRateLpm| >
           avgOf (lastTen (postHistory sample st)) FlowMetrics.flowRateLpm * (1/2)
         then (95/100 : ℚ) else 7/10) now ∈
      (ingestFlowTelemetry now sample st).2 := by
  have hmem :
      (⟨AnomalyType.flow_rate_deviation,
        if |(currentOf sample st).flowRateLpm -
             avgOf (lastTen (postHistory sample st)) FlowMetrics.flowRateLpm| >
            avgOf (lastTen (postHistory sample st)) FlowMetrics.flowRateLpm * (1/2)
          then Sev3.high else Sev3.medium,
        avgOf (lastTen (postHistory sample st)) FlowMetrics.flowRateLpm * (3/4),
        avgOf (lastTen (postHistory sample st)) FlowMetrics.flowRateLpm * (5/4),
        (currentOf sample st).flowRateLpm⟩ : FlowAnomaly) ∈
        detectAnomalies (postHistory sample st) (currentOf sample st) := by
    unfold detectAnomalies
    simp only [if_pos hlen, if_pos hdev]
    simp
  constructor
  · show _ ∈ st.anomalyHistory ++ detectAnomalies (postHistory sample st) (currentOf sample st)
    exact List.mem_append_right _ hmem
  · show _ ∈ (detectAnomalies (postHistory sample st) (currentOf sample st)).map (anomalyEvent now)
        ++ [BusEvent.flowMetricsUpdated]
    refine List.mem_append_left _ ?_
    have := List.mem_map_of_mem (anomalyEvent now) hmem
    simpa [anomalyEvent, anomalyConfidence, apply_ite] using this

/-- **C3** witness: a window `[150, 150, 250]` (mean `550/3`) with current
sample `250` — deviation `200/3 > 137.5/3 = mean/4` but not `> mean/2` —
produces a `medium` `flow_rate_deviation` and an `anomaly.detected` event
with confidence 0.7. -/
theorem flowiq_flow_deviation_anomaly_witness :
    (3 ≤ (lastTen (postHistory (SamplePartial.full 250 2500000 45 2)
            ⟨[⟨150, 2500000, 45, 0⟩, ⟨150, 2500000, 45, 1⟩], [], true⟩)).length ∧
     |(currentOf (SamplePartial.full 250 2500000 45 2)
          ⟨[⟨150, 2500000, 45, 0⟩, ⟨150, 2500000, 45, 1⟩], [], true⟩).flowRateLpm -
        avgOf (lastTen (postHistory (SamplePartial.full 250 2500000 45 2)
          ⟨[⟨150, 2500000, 45, 0⟩, ⟨150, 2500000, 45, 1⟩], [], true⟩)) FlowMetrics.flowRateLpm| >
       avgOf (lastTen (postHistory (SamplePartial.full 250 2500000 45 2)
          ⟨[⟨150, 2500000, 45, 0⟩, ⟨150, 2500000, 45, 1⟩], [], true⟩)) FlowMetrics.flowRateLpm * (1/4)) ∧
    BusEvent.anomalyDetected "flow_rate_deviation" (7/10) 0 ∈
      (ingestFlowTelemetry 0 (SamplePartial.full 250 2500000 45 2)
        ⟨[⟨150, 2500000, 45, 0⟩, ⟨150, 2500000, 45, 1⟩], [], true⟩).2 := by
  refine ⟨⟨by with_unfolding_all decide, by with_unfolding_all decide⟩, ?_⟩
  have h := flowiq_flow_deviation_anomaly 0 (SamplePartial.full 250 2500000 45 2)
    ⟨[⟨150, 2500000, 45, 0⟩, ⟨150, 2500000, 45, 1⟩], [], true⟩
    (by with_unfolding_all decide) (by with_unfolding_all decide)
  have h2 := h.2
  rwa [if_neg (by with_unfolding_all decide)] at h2

/-- **C9** (claim theorem): from the fresh detector state (empty histories),
the first two ingested samples — whatever their values — run no anomaly
check: both steps leave the anomaly history empty and emit only
`flow.metrics.updated` (in particular no `anomaly.detected` event); and in
general `detectAnomalies` produces nothing whenever the rolling window holds
fewer than 3 samples. -/
theorem flowiq_first_two_samples_normal (n1 n2 : ℤ) (s1 s2 : SamplePartial)
    (hist : List FlowMetrics) (c : FlowMetrics)
    (hshort : (lastTen hist).length < 3) :
    (ingestFlowTelemetry n1 s1 FlowState.init).1.anomalyHistory = [] ∧
    (ingestFlowTelemetry n1 s1 FlowState.init).2 = [BusEvent.flowMetricsUpdated] ∧
    (ingestFlowTelemetry n2 s2 (ingestFlowTelemetry n1 s1 FlowState.init).1).1.anomalyHistory = [] ∧
    (ingestFlowTelemetry n2 s2 (ingestFlowTelemetry n1 s1 FlowState.init).1).2
      = [BusEvent.flowMetricsUpdated] ∧
    detectAnomalies hist c = [] := by
  have hgen : detectAnomalies hist c = [] := by
    unfold detectAnomalies
    rw [if_neg (by omega)]
  have haH : ∀ (now : ℤ) (s : SamplePartial) (st : FlowState),
      (ingestFlowTelemetry now s st).1.anomalyHistory
        = st.anomalyHistory ++ detectAnomalies (postHistory s st) (currentOf s st) :=
    fun _ _ _ => rfl
  have hev : ∀ (now : ℤ) (s : SamplePartial) (st : FlowState),
      (ingestFlowTelemetry now s st).2
        = (detectAnomalies (postHistory s st) (currentOf s st)).map (anomalyEvent now)
          ++ [BusEvent.flowMetricsUpdated] :=
    fun _ _ _ => rfl
  have hmH : ∀ (now : ℤ) (s : SamplePartial) (st : FlowState),
      (ingestFlowTelemetry now s st).1.metricsHistory = postHistory s st :=
    fun _ _ _ => rfl
  have hp1 : postHistory s1 FlowState.init = [currentOf s1 FlowState.init] := by
    simp [postHistory, FlowState.init]
  have h1 : detectAnomalies (postHistory s1 FlowState.init) (currentOf s1 FlowState.init) = [] := by
    simp only [detectAnomalies, hp1]
    rw [if_neg (by simp [lastTen])]
  have hp2 : postHistory s2 (ingestFlowTelemetry n1 s1 FlowState.init).1
      = [currentOf s1 FlowState.init,
         currentOf s2 (ingestFlowTelemetry n1 s1 FlowState.init).1] := by
    unfold postHistory
    rw [hmH, hp1]
    simp
  have h2 : detectAnomalies (postHistory s2 (ingestFlowTelemetry n1 s1 FlowState.init).1)
      (currentOf s2 (ingestFlowTelemetry n1 s1 FlowState.init).1) = [] := by
    simp only [detectAnomalies, hp2]
    rw [if_neg (by simp [lastTen])]
  refine ⟨?_, ?_, ?_, ?_, hgen⟩
  · rw [haH, h1]
    simp [FlowState.init]
  · rw [hev, h1]
    simp
  · rw [haH, h2, haH, h1]
    simp [FlowState.init]
  · rw [hev, h2]
    simp

/-- **C9** witness at concrete extreme samples. -/
theorem flowiq_first_two_samples_normal_witness :
    (lastTen []).length < 3 ∧
    ((ingestFlowTelemetry 0 (SamplePartial.full 1 1 1 0) FlowState.init).1.anomalyHistory = [] ∧
     (ingestFlowTelemetry 0 (SamplePartial.full 1 1 1 0) FlowState.init).2
       = [BusEvent.flowMetricsUpdated] ∧
     (ingestFlowTelemetry 1 (SamplePartial.full 1000000 1000000 1000000 1)
        (ingestFlowTelemetry 0 (SamplePartial.full 1 1 1 0) FlowState.init).1).1.anomalyHistory = [] ∧
     (ingestFlowTelemetry 1 (SamplePartial.full 1000000 1000000 1000000 1)
        (ingestFlowTelemetry 0 (SamplePartial.full 1 1 1 0) FlowState.init).1).2
       = [BusEvent.flowMetricsUpdated] ∧
     detectAnomalies [] baselineMetrics = []) :=
  ⟨by decide,
   flowiq_first_two_samples_normal 0 1 (SamplePartial.full 1 1 1 0)
     (SamplePartial.full 1000000 1000000 1000000 1) [] baselineMetrics (by decide)⟩

/-- **C5** (amended claim theorem): the telemetry sample history is bounded
by 100 with FIFO eviction — a push beyond capacity drops exactly the oldest
entry, keeping the most recent samples in oldest-first order — while the
anomaly history is append-only and *unbounded* (each step appends the newly
detected anomalies and never evicts); the generator step preserves the same
bound and append-only shape. -/
theorem flowiq_history_bounds (now : ℤ) (sample : SamplePartial)
    (st : FlowState) (nf np nt : ℚ)
    (h : st.metricsHistory.length ≤ 100) :
    (ingestFlowTelemetry now sample st).1.metricsHistory.length ≤ 100 ∧
    (ingestFlowTelemetry now sample st).1.metricsHistory
      = (st.metricsHistory ++ [currentOf sample st]).drop
          (st.metricsHistory.length + 1 - 100) ∧
    (ingestFlowTelemetry now sample st).1.anomalyHistory
      = st.anomalyHistory ++
          detectAnomalies (postHistory sample st) (currentOf sample st) ∧
    (generatorStep now nf np nt st).1.metricsHistory.length ≤ 100 ∧
    ∃ t, (generatorStep now nf np nt st).1.anomalyHistory
           = st.anomalyHistory ++ t := by
  have hpost : postHistory sample st
      = (st.metricsHistory ++ [currentOf sample st]).drop
          (st.metricsHistory.length + 1 - 100) := by
    unfold postHistory
    rcases Nat.lt_or_ge st.metricsHistory.length 100 with hlt | hge
    · rw [if_neg (by simp; omega)]
      have : st.metricsHistory.length + 1 - 100 = 0 := by omega
      rw [this, List.drop_zero]
    · have h100 : st.metricsHistory.length = 100 := by omega
      rw [if_pos (by simp; omega)]
      rw [h100]
  have hlen : (postHistory sample st).length ≤ 100 := by
    rw [hpost]
    simp
    omega
  refine ⟨hlen, hpost, rfl, ?_, ?_⟩
  · unfold generatorStep
    rcases hr : st.ros2Active with _ | _
    · simp only [hr, Bool.false_eq_true, if_false]
      rcases Nat.lt_or_ge st.metricsHistory.length 100 with hlt | hge
      · rw [if_neg (by simp; omega)]
        simp
        omega
      · rw [if_pos (by simp; omega)]
        simp
        omega
    · simp only [hr, if_true]
      exact h
  · unfold generatorStep
    rcases hr : st.ros2Active with _ | _
    · simp only [hr, Bool.false_eq_true, if_false]
      exact ⟨_, rfl⟩
    · simp only [hr, if_true]
      exact ⟨[], by simp⟩

/-- **C5** witness at the initial state. -/
theorem flowiq_history_bounds_witness :
    FlowState.init.metricsHistory.length ≤ 100 ∧
    ((ingestFlowTelemetry 0 (SamplePartial.full 1 2 3 0) FlowState.init).1.metricsHistory.length ≤ 100 ∧
     (ingestFlowTelemetry 0 (SamplePartial.full 1 2 3 0) FlowState.init).1.metricsHistory
       = (FlowState.init.metricsHistory ++ [currentOf (SamplePartial.full 1 2 3 0) FlowState.init]).drop
           (FlowState.init.metricsHistory.length + 1 - 100) ∧
     (ingestFlowTelemetry 0 (SamplePartial.full 1 2 3 0) FlowState.init).1.anomalyHistory
       = FlowState.init.anomalyHistory ++
           detectAnomalies (postHistory (SamplePartial.full 1 2 3 0) FlowState.init)
             (currentOf (SamplePartial.full 1 2 3 0) FlowState.init) ∧
     (generatorStep 0 1 1 1 FlowState.init).1.metricsHistory.length ≤ 100 ∧
     ∃ t, (generatorStep 0 1 1 1 FlowState.init).1.anomalyHistory
            = FlowState.init.anomalyHistory ++ t) :=
  ⟨by decide, flowiq_history_bounds 0 (SamplePartial.full 1 2 3 0) FlowState.init 1 1 1 (by decide)⟩

set_option maxRecDepth 1000000 in
/-- **C5** counterexample: after 169 ingestion steps on alternating extreme
samples the anomaly history holds 501 entries — the stated capacity of 500
is exceeded, so the anomaly history is not a bounded buffer. -/
theorem flowiq_anomaly_history_unbounded_cex :
    ¬ (altIngestRun 169).anomalyHistory.length ≤ 500 := by
  with_unfolding_all decide

/-! ## Incidents (`services/api/src/modules/incidents.ts`)

The module keeps `incidents: Map<string, Incident>` (insertion-ordered) and
an `alertQueue`.  Incident/alert ids are opaque `uuid()` strings, modelled
as `ℕ` supplied by the caller; ISO timestamp strings are modelled as `ℤ`
milliseconds (the source converts them back with `new Date(s).getTime()`).
`severity` and `status` are plain strings in the source (the update route
stores whatever string the request carries), so they stay `String` here. -/

inductive TLType where
  | detection | alert | action | update
deriving DecidableEq, Repr

/-- `TimelineEvent` (`createTimelineEvent` output; the `metadata` bag —
the raw triggering event — is not modelled, no claim observes it). -/
structure TimelineEvent where
  timestamp : ℤ
  ttype : TLType
  title : String
  description : String
deriving DecidableEq, Repr

structure Incident where
  id : ℕ
  title : String
  severity : String
  status : String
  startedAt : ℤ
  resolvedAt : Option ℤ
  affectedModules : List String
  detectionIds : List ℕ
  alertIds : List ℕ
  rootCause : Option String
  resolution : Option String
  timeline : List TimelineEvent
deriving DecidableEq, Repr

/-- The payload fields of an `alert.created` bus event that `handleAlert`
reads.  Every field is optional (`event` is untyped in the source). -/
structure AlertEvent where
  id : Option ℕ
  severity : Option String
  message : Option String
  moduleKey : Option String
  latitude : Option ℚ
  longitude : Option ℚ
deriving DecidableEq, Repr

/-- JS `x || d` on an optional string: `undefined` and `""` are falsy. -/
def jsOrStr (o : Option String) (d : String) : String :=
  match o with
  | some s => if s = "" then d else s
  | none => d

/-- JS truthiness of an optional number: `undefined` and `0` are falsy. -/
def truthyQ (o : Option ℚ) : Bool :=
  match o with
  | some x => x ≠ 0
  | none => false

/-- Module state of incidents.ts: the `incidents` map (as an
insertion-ordered list) and the `alertQueue`. -/
structure IncState where
  incidents : List Incident
  alertQueue : List AlertEvent
deriving DecidableEq, Repr

def IncState.init : IncState := { incidents := [], alertQueue := [] }

/-- `correlateAlerts(newAlert)` from incidents.ts: filter the non-resolved
incidents started within the last two minutes; then — only when the alert
carries truthy `latitude` and `longitude` — return the first of them whose
`detectionIds` is nonempty (the loop body ignores the actual coordinates);
otherwise `null`. -/
def correlateAlerts (now : ℤ) (newAlert : AlertEvent) (incidents : List Incident) :
    Option Incident :=
  let twoMinutesAgo := now - 2 * 60 * 1000
  let recentIncidents := incidents.filter
    (fun inc => inc.status ≠ "resolved" && twoMinutesAgo < inc.startedAt)
  if truthyQ newAlert.latitude && truthyQ newAlert.longitude then
    recentIncidents.find? (fun incident => 0 < incident.detectionIds.length)
  else none

/-- The timeline entry `handleAlert` appends on correlation:
`createTimelineEvent("alert", "New alert",
"SEVERITY: message")` with `event.severity?.toUpperCase() || "INFO"` and
`event.message || "Alert"`. -/
def alertTimelineEntry (now : ℤ) (ev : AlertEvent) : TimelineEvent :=
  { timestamp := now, ttype := .alert, title := "New alert",
    description := jsOrStr (ev.severity.map String.toUpper) "INFO" ++ ": "
      ++ jsOrStr ev.message "Alert" }

/-- The fresh incident `handleAlert` seeds from an uncorrelated alert
(`freshId` is the `uuid()` for the incident, `freshAlertId` the second
`uuid()` used when the event has no id; `${event.message}` on a missing
message stringifies to `"undefined"`). -/
def newIncidentOf (now : ℤ) (freshId freshAlertId : ℕ) (ev : AlertEvent) : Incident :=
  { id := freshId,
    title := jsOrStr ev.message "Incident",
    severity := jsOrStr ev.severity "warning",
    status := "active",
    startedAt := now,
    resolvedAt := none,
    affectedModules := [jsOrStr ev.moduleKey "valve-ops"],
    detectionIds := [],
    alertIds := [ev.id.getD freshAlertId],
    rootCause := none,
    resolution := none,
    timeline := [{ timestamp := now, ttype := .alert, title := "Incident Started",
                   description := ev.message.getD "undefined" }] }

/-- `handleAlert(event)` from `registerIncidents`: ignore anything but
`alert.created`; push onto the alert queue; correlate; on a hit, push the
alert id and a timeline entry onto the matched incident (mutated in the
`incidents` map) and emit `incident.updated`; otherwise insert a fresh
incident and emit `incident.created`. -/
def handleAlert (now : ℤ) (freshId freshAlertId : ℕ) (etype : String)
    (ev : AlertEvent) (st : IncState) : IncState × List BusEvent :=
  if etype ≠ "alert.created" then (st, [])
  else
    let st1 : IncState := { st with alertQueue := st.alertQueue ++ [ev] }
    match correlateAlerts now ev st.incidents with
    | some existing =>
        let updated : Incident := { existing with
          alertIds := existing.alertIds ++ [ev.id.getD freshAlertId],
          timeline := existing.timeline ++ [alertTimelineEntry now ev] }
        ({ st1 with incidents :=
             st1.incidents.map (fun i => if i.id = existing.id then updated else i) },
         [BusEvent.incidentUpdated existing.id])
    | none =>
        let inc := newIncidentOf now freshId freshAlertId ev
        ({ st1 with incidents := st1.incidents ++ [inc] },
         [BusEvent.incidentCreated inc.id inc.severity])

/-- JS truthiness of an optional string (`undefined` and `""` are falsy),
as used by `if (status) ...` in the incident update route. -/
def truthyStr (o : Option String) : Bool :=
  match o with
  | some s => s ≠ ""
  | none => false

/-- The body of `POST /incidents/:id/update`. -/
structure UpdateBody where
  status : Option String
  rootCause : Option String
  resolution : Option String
deriving DecidableEq, Repr

/-- The in-place mutations the update route applies to a found incident:
truthy `status` overwrites `status`; truthy `rootCause` stores it and
appends a `Root Cause Identified` timeline entry; truthy `resolution`
stores it, forces `status = "resolved"`, stamps `resolvedAt` and appends an
`Incident Resolved` timeline entry. -/
def applyUpdate (now : ℤ) (body : UpdateBody) (inc : Incident) : Incident :=
  let inc1 := if truthyStr body.status
    then { inc with status := body.status.getD "" } else inc
  let inc2 := if truthyStr body.rootCause
    then { inc1 with
             rootCause := body.rootCause,
             timeline := inc1.timeline ++
               [{ timestamp := now, ttype := .update,
                  title := "Root Cause Identified",
                  description := body.rootCause.getD "" }] }
    else inc1
  if truthyStr body.resolution
    then { inc2 with
             resolution := body.resolution,
             status := "resolved",
             resolvedAt := some now,
             timeline := inc2.timeline ++
               [{ timestamp := now, ttype := .action,
                  title := "Incident Resolved",
                  description := body.resolution.getD "" }] }
    else inc2

/-- `POST /incidents/:id/update`: unknown id returns `not_found` (modelled
`none`) before any mutation or emission; otherwise applies the update to the
stored incident, emits `incident.updated`, and returns the incident. -/
def updateIncident (now : ℤ) (id : ℕ) (body : UpdateBody) (st : IncState) :
    Option Incident × IncState × List BusEvent :=
  match st.incidents.find? (fun i => i.id = id) with
  | none => (none, st, [])
  | some inc =>
      let inc2 := applyUpdate now body inc
      (some inc2,
       { st with incidents :=
           st.incidents.map (fun i => if i.id = id then inc2 else i) },
       [BusEvent.incidentUpdated inc2.id])

/-- `incident.timeline.sort((a, b) => bT − aT)`: ECMAScript sort is stable
and in place; the unique stable newest-first reordering is computed by a
stable insertion sort with `a` placed before `b` iff `b.timestamp ≤
a.timestamp`. -/
def sortNewestFirst (tl : List TimelineEvent) : List TimelineEvent :=
  tl.insertionSort (fun a b => b.timestamp ≤ a.timestamp)

/-- The response of `GET /incidents/:id/timeline`. -/
structure TimelineResponse where
  incidentId : ℕ
  title : String
  status : String
  startedAt : ℤ
  resolvedAt : Option ℤ
  timeline : List TimelineEvent
deriving DecidableEq, Repr

/-- `GET /incidents/:id/timeline`: unknown id returns `not_found`;
otherwise builds the response around `incident.timeline.sort(...)` — and
because `Array.prototype.sort` sorts **in place**, the stored incident's
`timeline` is left reordered newest-first by the read. -/
def getTimeline (id : ℕ) (st : IncState) : Option TimelineResponse × IncState :=
  match st.incidents.find? (fun i => i.id = id) with
  | none => (none, st)
  | some inc =>
      let sorted := sortNewestFirst inc.timeline
      (some { incidentId := inc.id, title := inc.title, status := inc.status,
              startedAt := inc.startedAt, resolvedAt := inc.resolvedAt,
              timeline := sorted },
       { st with incidents :=
           st.incidents.map (fun i => if i.id = id then { i with timeline := sorted } else i) })

/-! ## Missions (`services/api/src/modules/missions-lite.ts`)

`missions: Map<string, Mission>` and the process-wide `activeMission`
pointer.  Mission ids are `uuid()` strings; timeline entries are opaque
payloads (no claim inspects them), modelled as `String`. -/

structure Mission where
  id : String
  title : String
  mtype : String
  status : String
  createdAt : ℤ
  startedAt : Option ℤ
  completedAt : Option ℤ
  timeline : List String
  playbackSpeed : ℚ
deriving DecidableEq, Repr

structure MissionState where
  missions : List Mission
  activeMission : Option Mission
deriving DecidableEq, Repr

def MissionState.init : MissionState := { missions := [], activeMission := none }

def findMission (id : String) (st : MissionState) : Option Mission :=
  st.missions.find? (fun m => m.id = id)

/-- `missions.set(m.id, m')` on an existing key: replace in place. -/
def setMission (m : Mission) (l : List Mission) : List Mission :=
  l.map (fun x => if x.id = m.id then m else x)

/-- `POST /missions/:id/start`: unknown id → `not_found`, no mutation;
else `activeMission = { ...m, status: "active", startedAt: now }`, stored
back, `mission.started` emitted. -/
def missionStart (now : ℤ) (id : String) (st : MissionState) :
    Option Unit × MissionState × List BusEvent :=
  match findMission id st with
  | none => (none, st, [])
  | some m =>
      let am := { m with status := "active", startedAt := some now }
      (some (),
       { missions := setMission am st.missions, activeMission := some am },
       [BusEvent.missionStarted m.id now])

/-- `POST /missions/:id/pause`: unknown id → `not_found`, no mutation;
else status := "paused" in place, clearing the active pointer when it
points at this mission. -/
def missionPause (id : String) (st : MissionState) :
    Option Unit × MissionState × List BusEvent :=
  match findMission id st with
  | none => (none, st, [])
  | some m =>
      let m2 := { m with status := "paused" }
      (some (),
       { missions := setMission m2 st.missions,
         activeMission :=
           match st.activeMission with
           | some a => if a.id = m.id then none else st.activeMission
           | none => none },
       [])

/-- `POST /missions/:id/resume`: unknown id → `not_found`, no mutation;
else status := "active" in place and the active pointer is set to this
mission (no paused-state guard). -/
def missionResume (id : String) (st : MissionState) :
    Option Unit × MissionState × List BusEvent :=
  match findMission id st with
  | none => (none, st, [])
  | some m =>
      let m2 := { m with status := "active" }
      (some (),
       { missions := setMission m2 st.missions, activeMission := some m2 },
       [])

/-- `POST /missions/:id/stop`: unknown id → `not_found`, no mutation; else
status := "completed", `completedAt` stamped, active pointer cleared when it
points here, `mission.completed` emitted. -/
def missionStop (now : ℤ) (id : String) (st : MissionState) :
    Option Unit × MissionState × List BusEvent :=
  match findMission id st with
  | none => (none, st, [])
  | some m =>
      let m2 := { m with status := "completed", completedAt := some now }
      (some (),
       { missions := setMission m2 st.missions,
         activeMission :=
           match st.activeMission with
           | some a => if a.id = m.id then none else st.activeMission
           | none => none },
       [BusEvent.missionCompleted m.id now])

/-- `POST /missions/:id/setspeed`: unknown id → `not_found`, no mutation;
else `playbackSpeed = Math.max(0.1, Math.min(10, speed))`. -/
def missionSetSpeed (id : String) (speed : ℚ) (st : MissionState) :
    Option ℚ × MissionState × List BusEvent :=
  match findMission id st with
  | none => (none, st, [])
  | some m =>
      let sp := max (1/10) (min 10 speed)
      let m2 := { m with playbackSpeed := sp }
      (some sp, { missions := setMission m2 st.missions,
                  activeMission := st.activeMission }, [])

/-- `POST /missions/:id/branch`: unknown id → `not_found`, no mutation;
else a new `scenario`-typed mission copying the source (`...source` spread,
then overrides), inserted under the fresh id. -/
def missionBranch (now : ℤ) (freshId : String) (id : String)
    (btitle : Option String) (st : MissionState) :
    Option Mission × MissionState × List BusEvent :=
  match findMission id st with
  | none => (none, st, [])
  | some source =>
      let scenario := { source with
        id := freshId, mtype := "scenario",
        title := jsOrStr btitle (source.title ++ " (Scenario)"),
        status := "draft", createdAt := now }
      (some scenario,
       { missions := st.missions ++ [scenario],
         activeMission := st.activeMission }, [])

/-- First of two alerts at the same location, 60 s apart. -/
def cexAlertA : AlertEvent :=
  { id := some 1, severity := some "critical", message := some "Leak detected",
    moduleKey := some "pipeline-guard", latitude := some 40, longitude := some (-74) }

/-- Second of two alerts at the same location, 60 s apart. -/
def cexAlertB : AlertEvent :=
  { id := some 2, severity := some "critical", message := some "Leak detected",
    moduleKey := some "pipeline-guard", latitude := some 40, longitude := some (-74) }

/-- **C1** counterexample: two `alert.created` events 60 seconds apart —
both carrying coordinates, the first incident still `active` and started
within the 2-minute window — end in **two** incidents of one alert
reference each, not one incident holding both: `correlateAlerts` demands a
recent incident with nonempty `detectionIds`, and incidents seeded by
`handleAlert` always start with `detectionIds: []`. -/
theorem incidents_two_alerts_make_two_incidents_cex :
    ((handleAlert 60000 101 201 "alert.created" cexAlertB
        (handleAlert 0 100 200 "alert.created" cexAlertA IncState.init).1).1.incidents.map
      Incident.alertIds) = [[1], [2]] := by
  with_unfolding_all decide

/-- **C1** (amended claim theorem): on an `alert.created` event the
correlation target is the first non-resolved incident started within the
last 2 minutes **whose `detectionIds` is nonempty, and only when the alert
carries truthy latitude and longitude**; when such an incident exists the
alert's id and a timeline entry are appended to it and `incident.updated`
is published, otherwise (in particular for every alert pair hitting
incidents seeded by the correlator itself, whose `detectionIds` is always
empty) a fresh incident seeded with this alert is created and
`incident.created` is published. -/
theorem incidents_correlation_amended (now : ℤ) (freshId freshAlertId : ℕ)
    (ev : AlertEvent) (st : IncState) :
    correlateAlerts now ev st.incidents
      = (if truthyQ ev.latitude && truthyQ ev.longitude then
           (st.incidents.filter
             (fun inc => inc.status ≠ "resolved" && now - 2 * 60 * 1000 < inc.startedAt)).find?
             (fun inc => 0 < inc.detectionIds.length)
         else none) ∧
    handleAlert now freshId freshAlertId "alert.created" ev st
      = match correlateAlerts now ev st.incidents with
        | some inc =>
            ({ incidents := st.incidents.map (fun i =>
                 if i.id = inc.id then
                   { inc with
                     alertIds := inc.alertIds ++ [ev.id.getD freshAlertId],
                     timeline := inc.timeline ++ [alertTimelineEntry now ev] }
                 else i),
               alertQueue := st.alertQueue ++ [ev] },
             [BusEvent.incidentUpdated inc.id])
        | none =>
            ({ incidents := st.incidents ++ [newIncidentOf now freshId freshAlertId ev],
               alertQueue := st.alertQueue ++ [ev] },
             [BusEvent.incidentCreated freshId (jsOrStr ev.severity "warning")]) := by
  refine ⟨rfl, ?_⟩
  rcases h : correlateAlerts now ev st.incidents with _ | inc
  · simp [handleAlert, h, newIncidentOf]
  · simp [handleAlert, h]

/-- An incident whose stored timeline is in insertion order but not in
newest-first order. -/
def cexIncident : Incident :=
  { id := 1, title := "t", severity := "warning", status := "active",
    startedAt := 0, resolvedAt := none, affectedModules := [], detectionIds := [],
    alertIds := [], rootCause := none, resolution := none,
    timeline := [{ timestamp := 0, ttype := .alert, title := "a", description := "x" },
                 { timestamp := 5, ttype := .update, title := "b", description := "y" }] }

/-- **C6** counterexample: reading `GET /incidents/:id/timeline` on an
incident whose stored timeline is `[t=0, t=5]` leaves the stored timeline
reordered to `[t=5, t=0]` — `Array.prototype.sort` is in place, so the
read mutates the incident and insertion order is lost. -/
theorem incidents_getTimeline_mutates_cex :
    (getTimeline 1 { incidents := [cexIncident], alertQueue := [] }).2
      ≠ ({ incidents := [cexIncident], alertQueue := [] } : IncState) := by
  with_unfolding_all decide

/-- **C6** (amended claim theorem): for an existing incident,
`getTimeline(id)` returns the timeline sorted newest-first (the stable
descending permutation of the stored list) — but the read is **not**
mutation-free: the in-place sort leaves the incident's stored timeline in
that same newest-first order (every other field and every other incident
unchanged). -/
theorem incidents_getTimeline_amended (id : ℕ) (st : IncState) (inc : Incident)
    (h : st.incidents.find? (fun i => i.id = id) = some inc) :
    (getTimeline id st).1
      = some { incidentId := inc.id, title := inc.title, status := inc.status,
               startedAt := inc.startedAt, resolvedAt := inc.resolvedAt,
               timeline := sortNewestFirst inc.timeline } ∧
    (sortNewestFirst inc.timeline).Perm inc.timeline ∧
    List.Sorted (fun a b => b.timestamp ≤ a.timestamp) (sortNewestFirst inc.timeline) ∧
    (getTimeline id st).2
      = { st with incidents :=
            st.incidents.map (fun i => if i.id = id then { i with timeline := sortNewestFirst inc.timeline } else i) } := by
  refine ⟨?_, ?_, ?_, ?_⟩
  · simp [getTimeline, h]
  · exact List.perm_insertionSort _ _
  · haveI : IsTotal TimelineEvent (fun a b => b.timestamp ≤ a.timestamp) :=
      ⟨fun a b => le_total b.timestamp a.timestamp⟩
    haveI : IsTrans TimelineEvent (fun a b => b.timestamp ≤ a.timestamp) :=
      ⟨fun _ _ _ h1 h2 => le_trans h2 h1⟩
    exact List.sorted_insertionSort _ _
  · simp [getTimeline, h]

/-- **C6** witness at the concrete two-entry incident. -/
theorem incidents_getTimeline_amended_witness :
    (({ incidents := [cexIncident], alertQueue := [] } : IncState).incidents.find?
        (fun i => i.id = 1) = some cexIncident) ∧
    ((getTimeline 1 { incidents := [cexIncident], alertQueue := [] }).1
        = some { incidentId := cexIncident.id, title := cexIncident.title,
                 status := cexIncident.status, startedAt := cexIncident.startedAt,
                 resolvedAt := cexIncident.resolvedAt,
                 timeline := sortNewestFirst cexIncident.timeline } ∧
     (sortNewestFirst cexIncident.timeline).Perm cexIncident.timeline ∧
     List.Sorted (fun a b => b.timestamp ≤ a.timestamp) (sortNewestFirst cexIncident.timeline) ∧
     (getTimeline 1 { incidents := [cexIncident], alertQueue := [] }).2
        = { ({ incidents := [cexIncident], alertQueue := [] } : IncState) with
              incidents := ({ incidents := [cexIncident], alertQueue := [] } : IncState).incidents.map
                (fun i => if i.id = 1 then { i with timeline := sortNewestFirst cexIncident.timeline } else i) }) :=
  ⟨by with_unfolding_all decide,
   incidents_getTimeline_amended 1 { incidents := [cexIncident], alertQueue := [] }
     cexIncident (by with_unfolding_all decide)⟩

/-- **C8** (claim theorem): every operation addressed to an unknown id —
incident update, mission start/pause/resume/stop/setSpeed/branch — returns
the `not_found` outcome (modelled `none`), emits nothing, and leaves the
incident map, the mission map and the active-mission pointer exactly as
they were. -/
theorem unknown_id_no_mutation (now : ℤ) (iid : ℕ) (body : UpdateBody)
    (mid : String) (speed : ℚ) (freshId : String) (btitle : Option String)
    (ist : IncState) (mst : MissionState)
    (hinc : ist.incidents.find? (fun i => i.id = iid) = none)
    (hmis : mst.missions.find? (fun m => m.id = mid) = none) :
    updateIncident now iid body ist = (none, ist, []) ∧
    missionStart now mid mst = (none, mst, []) ∧
    missionPause mid mst = (none, mst, []) ∧
    missionResume mid mst = (none, mst, []) ∧
    missionStop now mid mst = (none, mst, []) ∧
    missionSetSpeed mid speed mst = (none, mst, []) ∧
    missionBranch now freshId mid btitle mst = (none, mst, []) := by
  refine ⟨?_, ?_, ?_, ?_, ?_, ?_, ?_⟩ <;>
    simp [updateIncident, missionStart, missionPause, missionResume,
          missionStop, missionSetSpeed, missionBranch, findMission, hinc, hmis]

/-- **C8** witness at empty stores. -/
theorem unknown_id_no_mutation_witness :
    (IncState.init.incidents.find? (fun i => i.id = 7) = none) ∧
    (MissionState.init.missions.find? (fun m => m.id = "m1") = none) ∧
    (updateIncident 0 7 { status := none, rootCause := none, resolution := none }
        IncState.init = (none, IncState.init, []) ∧
     missionStart 0 "m1" MissionState.init = (none, MissionState.init, []) ∧
     missionPause "m1" MissionState.init = (none, MissionState.init, []) ∧
     missionResume "m1" MissionState.init = (none, MissionState.init, []) ∧
     missionStop 0 "m1" MissionState.init = (none, MissionState.init, []) ∧
     missionSetSpeed "m1" 1 MissionState.init = (none, MissionState.init, []) ∧
     missionBranch 0 "f1" "m1" none MissionState.init = (none, MissionState.init, [])) :=
  ⟨rfl, rfl,
   unknown_id_no_mutation 0 7 { status := none, rootCause := none, resolution := none }
     "m1" 1 "f1" none IncState.init MissionState.init rfl rfl⟩

/-! ## ROS2 bridge (`src/ros2-bridge.ts`, read as `ROS2Bridge`)

`nodes: Map<nodeId, ROS2Node>` with `nodeId = namespace + "/" + name`;
`telemetryBuffer` (capacity 1000) and `commandHistory`.  The bridge's local
`this.emit(...)` notifications go to its own `EventEmitter`, not the SSE
bus; only `bus.emit` output is traced here. -/

inductive NodeHealth where
  | ok | degraded | offline
deriving DecidableEq, Repr

structure ROS2Node where
  name : String
  nspace : String
  ntype : String
  location : Option (ℚ × ℚ)
  subscribeTopics : List String
  publishTopics : List String
  lastSeen : ℤ
  health : NodeHealth
deriving DecidableEq, Repr

/-- The telemetry record pushed by the mock subscription loop; `data` is
restricted to the fields FlowIQ ingestion reads. -/
structure ROS2Telemetry where
  nodeId : String
  topic : String
  dataFlowRateLpm : Option ℚ
  dataPressurePa : Option ℚ
  dataTemperatureC : Option ℚ
  timestamp : ℤ
deriving DecidableEq, Repr

inductive CmdStatus where
  | pending | sent | acked | failed | timeout
deriving DecidableEq, Repr

structure CommandResult where
  commandId : String
  status : CmdStatus
  nodeId : String
  timestamp : ℤ
  error : Option String
deriving DecidableEq, Repr

structure ROS2Command where
  nodeId : String
  topic : String
  action : String
  priority : String
deriving DecidableEq, Repr

structure BridgeState where
  nodes : List (String × ROS2Node)
  telemetryBuffer : List ROS2Telemetry
  commandHistory : List (String × CommandResult)
deriving DecidableEq, Repr

def BridgeState.init : BridgeState :=
  { nodes := [], telemetryBuffer := [], commandHistory := [] }

/-- `this.nodes.get(nodeId)`. -/
def lookupNode (nodeId : String) (bst : BridgeState) : Option ROS2Node :=
  (bst.nodes.find? (fun p => p.1 = nodeId)).map Prod.snd

/-- JS `s.includes(sub)` (substring test). -/
def jsIncludes (s sub : String) : Bool :=
  (s.splitOn sub).length > 1

/-- `registerNode(node)`: store under `namespace + "/" + name` and publish
`ros2.node.discovered`. -/
def registerNode (now : ℤ) (node : ROS2Node) (bst : BridgeState) :
    BridgeState × List BusEvent :=
  let nodeId := node.nspace ++ "/" ++ node.name
  let nodes := if (bst.nodes.find? (fun p => p.1 = nodeId)).isSome
    then bst.nodes.map (fun p => if p.1 = nodeId then (nodeId, node) else p)
    else bst.nodes ++ [(nodeId, node)]
  ({ bst with nodes := nodes }, [BusEvent.ros2NodeDiscovered nodeId now])

/-- One firing of the 5-second mock interval created by
`subscribeTelemetry(nodeId, topic)`: if the node is gone, the interval
clears itself and nothing happens; otherwise push the telemetry record
(buffer capped at 1000), publish `ros2.telemetry`, and — when the topic
contains `"flow"` and the data carries `flowRateLpm` — hand the sample to
`ingestFlowTelemetry`.  The node map (and hence every node's `lastSeen`
and `health`) is never touched. -/
def telemetryTick (now : ℤ) (nodeId topic : String)
    (dFlow dPressure dTemp : Option ℚ) (bst : BridgeState) (fst : FlowState) :
    BridgeState × FlowState × List BusEvent :=
  match lookupNode nodeId bst with
  | none => (bst, fst, [])
  | some _ =>
      let t : ROS2Telemetry :=
        { nodeId := nodeId, topic := topic, dataFlowRateLpm := dFlow,
          dataPressurePa := dPressure, dataTemperatureC := dTemp, timestamp := now }
      let buf0 := bst.telemetryBuffer ++ [t]
      let buf := if buf0.length > 1000 then buf0.drop 1 else buf0
      if jsIncludes topic "flow" && dFlow.isSome then
        let r := ingestFlowTelemetry now
          { flowRateLpm := dFlow, pressurePa := dPressure,
            temperatureC := dTemp, timestamp := now } fst
        ({ bst with telemetryBuffer := buf }, r.1,
         BusEvent.ros2Telemetry nodeId topic now :: r.2)
      else
        ({ bst with telemetryBuffer := buf }, fst,
         [BusEvent.ros2Telemetry nodeId topic now])

/-- `markNodeOffline(nodeId)`: when the node exists, set `health =
"offline"`, reset `lastSeen = Date.now()` and publish `ros2.node.offline`;
when it does not, do nothing and publish nothing. -/
def markNodeOffline (now : ℤ) (nodeId : String) (bst : BridgeState) :
    BridgeState × List BusEvent :=
  match lookupNode nodeId bst with
  | none => (bst, [])
  | some node =>
      let node2 := { node with health := NodeHealth.offline, lastSeen := now }
      ({ bst with nodes :=
           bst.nodes.map (fun p => if p.1 = nodeId then (nodeId, node2) else p) },
       [BusEvent.ros2NodeOffline nodeId now])

/-- The `forEach` body of the heartbeat monitor: `markNodeOffline` the
visited node when its `lastSeen` is more than 60 000 ms old. -/
def monitorStep (now : ℤ) (acc : BridgeState × List BusEvent)
    (p : String × ROS2Node) : BridgeState × List BusEvent :=
  if 60000 < now - p.2.lastSeen then
    let r := markNodeOffline now p.1 acc.1
    (r.1, acc.2 ++ r.2)
  else acc

/-- One firing of `startHeartbeatMonitor`'s 30-second interval:
`markNodeOffline` every node whose `lastSeen` is more than 60 000 ms old. -/
def monitorTick (now : ℤ) (bst : BridgeState) : BridgeState × List BusEvent :=
  bst.nodes.foldl (monitorStep now) (bst, [])

/-- `publishCommand(cmd)` (`cid` is the generated `cmd_..` id): unknown
node or undeclared publish topic throws (the thrown messages are copied
verbatim, swapped wording included); otherwise a `pending` result is stored
and returned, and the randomized ack timer is scheduled. -/
def publishCommand (now : ℤ) (cid : String) (cmd : ROS2Command) (bst : BridgeState) :
    Except String CommandResult × BridgeState :=
  match lookupNode cmd.nodeId bst with
  | none => (.error ("Node " ++ cmd.nodeId ++ " not found"), bst)
  | some node =>
      if cmd.topic ∈ node.publishTopics then
        let result : CommandResult :=
          { commandId := cid, status := .pending, nodeId := cmd.nodeId,
            timestamp := now, error := none }
        (.ok result,
         { bst with commandHistory := bst.commandHistory ++ [(cid, result)] })
      else (.error ("Node " ++ cmd.nodeId ++ " does not subscribe to " ++ cmd.topic), bst)

/-- The body of `publishCommand`'s `setTimeout` callback: if the stored
result is still `pending`, flip it to `acked` (and notify); otherwise do
nothing. -/
def commandAckFire (cid : String) (bst : BridgeState) : BridgeState :=
  match bst.commandHistory.find? (fun p => p.1 = cid) with
  | none => bst
  | some pr =>
      if pr.2.status = .pending then
        { bst with commandHistory :=
            bst.commandHistory.map (fun p => if p.1 = cid then (cid, { pr.2 with status := CmdStatus.acked }) else p) }
      else bst

/-- A step of the command subsystem: a `publishCommand` call or an ack
timer firing (JS timers always fire; there is no cancellation path). -/
inductive CmdStep where
  | publish (now : ℤ) (cid : String) (cmd : ROS2Command)
  | fire (cid : String)

def applyCmdStep (b : BridgeState) : CmdStep → BridgeState
  | .publish now cid cmd => (publishCommand now cid cmd b).2
  | .fire cid => commandAckFire cid b

def runCmdSteps (l : List CmdStep) (b : BridgeState) : BridgeState :=
  l.foldl applyCmdStep b

theorem find?_map_replace_self {β : Type} (k : String) (v2 : β)
    (l : List (String × β)) (h : (l.find? (fun p => p.1 = k)).isSome) :
    (l.map (fun p => if p.1 = k then (k, v2) else p)).find? (fun p => p.1 = k)
      = some (k, v2) := by
  induction l with
  | nil => simp at h
  | cons a l ih =>
      by_cases ha : a.1 = k
      · simp [List.find?_cons, ha]
      · rw [List.find?_cons_of_neg _ (by simp [ha])] at h
        simp only [List.map_cons, if_neg ha]
        rw [List.find?_cons_of_neg _ (by simp [ha])]
        exact ih h

theorem find?_map_replace_other {β : Type} (k q : String) (v2 : β)
    (l : List (String × β)) (hne : k ≠ q) :
    (l.map (fun p => if p.1 = q then (q, v2) else p)).find? (fun p => p.1 = k)
      = l.find? (fun p => p.1 = k) := by
  induction l with
  | nil => rfl
  | cons a l ih =>
      by_cases ha : a.1 = q
      · have hqk : ¬ q = k := fun hqk => hne hqk.symm
        have hak : ¬ a.1 = k := by rw [ha]; exact hqk
        simp only [List.map_cons, if_pos ha]
        rw [List.find?_cons_of_neg _ (by simp [hqk]),
            List.find?_cons_of_neg _ (by simp [hak])]
        exact ih
      · simp only [List.map_cons, if_neg ha]
        by_cases hak : a.1 = k
        · rw [List.find?_cons_of_pos _ (by simp [hak]),
              List.find?_cons_of_pos _ (by simp [hak])]
        · rw [List.find?_cons_of_neg _ (by simp [hak]),
              List.find?_cons_of_neg _ (by simp [hak])]
          exact ih

theorem find?_append_of_none {β : Type} (pr : String × β → Bool)
    (l1 l2 : List (String × β)) (h : l1.find? pr = none) :
    (l1 ++ l2).find? pr = l2.find? pr := by
  induction l1 with
  | nil => rfl
  | cons a l ih =>
      by_cases ha : pr a
      · rw [List.find?_cons_of_pos _ ha] at h; exact absurd h (by simp)
      · rw [List.find?_cons_of_neg _ ha] at h
        rw [List.cons_append, List.find?_cons_of_neg _ ha]
        exact ih h

theorem lookupNode_markNodeOffline_self (now : ℤ) (k : String)
    (bst : BridgeState) (v : ROS2Node) (h : lookupNode k bst = some v) :
    lookupNode k (markNodeOffline now k bst).1
      = some { v with health := NodeHealth.offline, lastSeen := now } ∧
    (markNodeOffline now k bst).2 = [BusEvent.ros2NodeOffline k now] := by
  have hsome : (bst.nodes.find? (fun p => p.1 = k)).isSome := by
    unfold lookupNode at h
    rcases hf : bst.nodes.find? (fun p => p.1 = k) with _ | p
    · rw [hf] at h; simp at h
    · simp [hf]
  unfold markNodeOffline
  rw [h]
  refine ⟨?_, rfl⟩
  unfold lookupNode
  simp only
  rw [find?_map_replace_self k _ bst.nodes hsome]
  rfl

theorem lookupNode_markNodeOffline_other (now : ℤ) (q k : String)
    (bst : BridgeState) (hne : k ≠ q) :
    lookupNode k (markNodeOffline now q bst).1 = lookupNode k bst := by
  unfold markNodeOffline
  rcases hq : lookupNode q bst with _ | node
  · rfl
  · unfold lookupNode
    simp only
    rw [find?_map_replace_other k q _ bst.nodes hne]

theorem monitorStep_lookup_other (now : ℤ) (k : String)
    (acc : BridgeState × List BusEvent) (p : String × ROS2Node)
    (hne : p.1 ≠ k) :
    lookupNode k (monitorStep now acc p).1 = lookupNode k acc.1 := by
  unfold monitorStep
  by_cases hc : 60000 < now - p.2.lastSeen
  · rw [if_pos hc]
    exact lookupNode_markNodeOffline_other now p.1 k acc.1 (fun h => hne h.symm)
  · rw [if_neg hc]

theorem monitorFold_lookup_preserve (now : ℤ) (k : String) :
    ∀ (l : List (String × ROS2Node)) (acc : BridgeState × List BusEvent),
      (∀ p ∈ l, p.1 ≠ k) →
      lookupNode k (l.foldl (monitorStep now) acc).1 = lookupNode k acc.1 := by
  intro l
  induction l with
  | nil => intro acc _; rfl
  | cons a l ih =>
      intro acc hl
      rw [List.foldl_cons]
      rw [ih (monitorStep now acc a) (fun p hp => hl p (List.mem_cons_of_mem a hp))]
      exact monitorStep_lookup_other now k acc a (hl a (List.mem_cons_self a l))

theorem monitorFold_events_mono (now : ℤ) (e : BusEvent) :
    ∀ (l : List (String × ROS2Node)) (acc : BridgeState × List BusEvent),
      e ∈ acc.2 → e ∈ (l.foldl (monitorStep now) acc).2 := by
  intro l
  induction l with
  | nil => intro acc he; exact he
  | cons a l ih =>
      intro acc he
      rw [List.foldl_cons]
      refine ih (monitorStep now acc a) ?_
      unfold monitorStep
      by_cases hc : 60000 < now - a.2.lastSeen
      · rw [if_pos hc]; exact List.mem_append_left _ he
      · rw [if_neg hc]; exact he

theorem monitorFold_marks_stale (now : ℤ) (k : String) (v : ROS2Node)
    (hstale : 60000 < now - v.lastSeen) :
    ∀ (l : List (String × ROS2Node)) (acc : BridgeState × List BusEvent),
      (l.map Prod.fst).Nodup →
      (k, v) ∈ l →
      lookupNode k acc.1 = some v →
      lookupNode k (l.foldl (monitorStep now) acc).1
        = some { v with health := NodeHealth.offline, lastSeen := now } ∧
      BusEvent.ros2NodeOffline k now ∈ (l.foldl (monitorStep now) acc).2 := by
  intro l
  induction l with
  | nil => intro acc _ hmem _; exact absurd hmem (List.not_mem_nil _)
  | cons a l ih =>
      intro acc hnodup hmem hlk
      rw [List.map_cons, List.nodup_cons] at hnodup
      rcases List.mem_cons.mp hmem with heq | htail
      · subst heq
        have hrest : ∀ p ∈ l, p.1 ≠ k := by
          intro p hp hpk
          apply hnodup.1
          rw [← hpk]
          exact List.mem_map.mpr ⟨p, hp, rfl⟩
        have hmk := lookupNode_markNodeOffline_self now k acc.1 v hlk
        rw [List.foldl_cons]
        have hstep : monitorStep now acc (k, v)
            = ((markNodeOffline now k acc.1).1,
               acc.2 ++ (markNodeOffline now k acc.1).2) := by
          unfold monitorStep
          rw [if_pos hstale]
        constructor
        · rw [monitorFold_lookup_preserve now k l _ hrest, hstep]
          exact hmk.1
        · refine monitorFold_events_mono now _ l _ ?_
          rw [hstep, hmk.2]
          simp
      · have hak : a.1 ≠ k := by
          intro hk
          apply hnodup.1
          rw [hk]
          exact List.mem_map_of_mem Prod.fst htail
        rw [List.foldl_cons]
        refine ih (monitorStep now acc a) hnodup.2 htail ?_
        rw [monitorStep_lookup_other now k acc a hak]
        exact hlk

/-- **C10** (claim theorem): `markNodeOffline(nodeId)` on a registered node
sets exactly that node's `health` to `offline` **and resets its `lastSeen`
to the current time** (postponing the monitor's next staleness trigger by
60 s), publishing `ros2.node.offline`; every other field and every other
node (`k ≠ nodeId`) is untouched; on an unknown id nothing is mutated and
nothing is published. -/
theorem ros2_markNodeOffline_spec (now : ℤ) (nid k : String)
    (bst : BridgeState) (hk : k ≠ nid) :
    markNodeOffline now nid bst
      = (match lookupNode nid bst with
         | none => (bst, [])
         | some node =>
             ({ bst with nodes :=
                  bst.nodes.map (fun p => if p.1 = nid then (nid, { node with health := NodeHealth.offline, lastSeen := now }) else p) },
              [BusEvent.ros2NodeOffline nid now])) ∧
    lookupNode k (markNodeOffline now nid bst).1 = lookupNode k bst := by
  constructor
  · unfold markNodeOffline
    rcases lookupNode nid bst with _ | node <;> rfl
  · exact lookupNode_markNodeOffline_other now nid k bst hk

/-- **C10** witness: a one-node state; marking it offline resets `lastSeen`
and flips `health`, while a different key reads back unchanged. -/
theorem ros2_markNodeOffline_spec_witness :
    ("x" : String) ≠ "ns/n1" ∧
    (markNodeOffline 70000 "ns/n1"
        { nodes := [("ns/n1",
            { name := "n1", nspace := "ns", ntype := "sensor", location := none,
              subscribeTopics := ["flow"], publishTopics := [], lastSeen := 0,
              health := NodeHealth.ok })],
          telemetryBuffer := [], commandHistory := [] }
      = (match lookupNode "ns/n1"
            { nodes := [("ns/n1",
                { name := "n1", nspace := "ns", ntype := "sensor", location := none,
                  subscribeTopics := ["flow"], publishTopics := [], lastSeen := 0,
                  health := NodeHealth.ok })],
              telemetryBuffer := [], commandHistory := [] } with
         | none =>
             ({ nodes := [("ns/n1",
                  { name := "n1", nspace := "ns", ntype := "sensor", location := none,
                    subscribeTopics := ["flow"], publishTopics := [], lastSeen := 0,
                    health := NodeHealth.ok })],
                telemetryBuffer := [], commandHistory := [] }, [])
         | some node =>
             ({ nodes := [("ns/n1",
                  { name := "n1", nspace := "ns", ntype := "sensor", location := none,
                    subscribeTopics := ["flow"], publishTopics := [], lastSeen := 0,
                    health := NodeHealth.ok })].map
                    (fun p => if p.1 = "ns/n1" then ("ns/n1", { node with health := NodeHealth.offline, lastSeen := 70000 }) else p),
                telemetryBuffer := [], commandHistory := [] },
              [BusEvent.ros2NodeOffline "ns/n1" 70000])) ∧
     lookupNode "x" (markNodeOffline 70000 "ns/n1"
        { nodes := [("ns/n1",
            { name := "n1", nspace := "ns", ntype := "sensor", location := none,
              subscribeTopics := ["flow"], publishTopics := [], lastSeen := 0,
              health := NodeHealth.ok })],
          telemetryBuffer := [], commandHistory := [] }).1
       = lookupNode "x"
          { nodes := [("ns/n1",
              { name := "n1", nspace := "ns", ntype := "sensor", location := none,
                subscribeTopics := ["flow"], publishTopics := [], lastSeen := 0,
                health := NodeHealth.ok })],
            telemetryBuffer := [], commandHistory := [] }) :=
  ⟨by decide, ros2_markNodeOffline_spec 70000 "ns/n1" "x" _ (by decide)⟩

/-- The node of the C2 telemetry scenario, registered at t = 0. -/
def cexSensorNode : ROS2Node :=
  { name := "n1", nspace := "ns", ntype := "sensor", location := none,
    subscribeTopics := ["flow"], publishTopics := [], lastSeen := 0,
    health := NodeHealth.ok }

/-- Register `cexSensorNode` at t = 0, then deliver `i` telemetry samples
on topic `"flow"` at t = 5 s, 10 s, ….  Every delivery also feeds FlowIQ. -/
def cexTelemetryRun : ℕ → BridgeState × FlowState
  | 0 => ((registerNode 0 cexSensorNode BridgeState.init).1, FlowState.init)
  | i + 1 =>
      let r := cexTelemetryRun i
      let t := telemetryTick (5000 * ((i : ℤ) + 1)) "ns/n1" "flow"
        (some 150) none none r.1 r.2
      (t.1, t.2.1)

/-- **C2** counterexample: a node registered at t = 0 receives 17 telemetry
deliveries (t = 5 s … 85 s) through its active subscription loop, yet at the
t = 90 s monitor tick it is marked `offline` — telemetry deliveries never
refresh `lastSeen`, so the claim that such a node is never marked offline
fails (its health was still `ok` just before the tick only because the
monitor had not yet looked). -/
theorem ros2_node_offline_despite_telemetry_cex :
    (lookupNode "ns/n1" (cexTelemetryRun 17).1).map ROS2Node.health
      = some NodeHealth.ok ∧
    (lookupNode "ns/n1" (cexTelemetryRun 17).1).map ROS2Node.lastSeen
      = some 0 ∧
    (lookupNode "ns/n1" (monitorTick 90000 (cexTelemetryRun 17).1).1).map ROS2Node.health
      = some NodeHealth.offline := by
  with_unfolding_all decide

/-- **C2** (amended claim theorem): a telemetry delivery leaves the node
map — every node's `lastSeen` and `health` — completely unchanged (the
mock subscription loop never refreshes `lastSeen`); consequently the
heartbeat monitor, at any tick more than 60 s after a node's `lastSeen`
(its registration time, however much telemetry has arrived since), marks
that node `offline` and publishes `ros2.node.offline`. -/
theorem ros2_telemetry_no_refresh_monitor_marks (tnow now : ℤ)
    (nid tp : String) (dF dP dT : Option ℚ) (bst : BridgeState)
    (fst : FlowState) (k : String) (v : ROS2Node)
    (hnodup : (bst.nodes.map Prod.fst).Nodup)
    (hmem : (k, v) ∈ bst.nodes)
    (hlk : lookupNode k bst = some v)
    (hstale : 60000 < now - v.lastSeen) :
    (telemetryTick tnow nid tp dF dP dT bst fst).1.nodes = bst.nodes ∧
    lookupNode k (monitorTick now bst).1
      = some { v with health := NodeHealth.offline, lastSeen := now } ∧
    BusEvent.ros2NodeOffline k now ∈ (monitorTick now bst).2 := by
  refine ⟨?_, ?_⟩
  · rcases h : lookupNode nid bst with _ | node <;>
      simp only [telemetryTick, h]
    split <;> rfl
  · exact monitorFold_marks_stale now k v hstale bst.nodes (bst, []) hnodup hmem hlk

/-- **C2** witness: the registered single-node state, a telemetry delivery
at t = 5 s, and the monitor tick at t = 90 s. -/
theorem ros2_telemetry_no_refresh_monitor_marks_witness :
    ((((registerNode 0 cexSensorNode BridgeState.init).1.nodes.map Prod.fst).Nodup) ∧
     ("ns/n1", cexSensorNode) ∈ (registerNode 0 cexSensorNode BridgeState.init).1.nodes ∧
     lookupNode "ns/n1" (registerNode 0 cexSensorNode BridgeState.init).1 = some cexSensorNode ∧
     60000 < (90000 : ℤ) - cexSensorNode.lastSeen) ∧
    ((telemetryTick 5000 "ns/n1" "flow" (some 150) none none
        (registerNode 0 cexSensorNode BridgeState.init).1 FlowState.init).1.nodes
       = (registerNode 0 cexSensorNode BridgeState.init).1.nodes ∧
     lookupNode "ns/n1" (monitorTick 90000 (registerNode 0 cexSensorNode BridgeState.init).1).1
       = some { cexSensorNode with health := NodeHealth.offline, lastSeen := 90000 } ∧
     BusEvent.ros2NodeOffline "ns/n1" 90000
       ∈ (monitorTick 90000 (registerNode 0 cexSensorNode BridgeState.init).1).2) :=
  ⟨⟨by decide, by decide, by decide, by decide⟩,
   ros2_telemetry_no_refresh_monitor_marks 5000 90000 "ns/n1" "flow"
     (some 150) none none (registerNode 0 cexSensorNode BridgeState.init).1
     FlowState.init "ns/n1" cexSensorNode
     (by decide) (by decide) (by decide) (by decide)⟩

theorem applyCmdStep_preserve (b : BridgeState) (s : CmdStep)
    (hinv : ∀ p ∈ b.commandHistory,
      p.2.status = CmdStatus.pending ∨ p.2.status = CmdStatus.acked) :
    ∀ p ∈ (applyCmdStep b s).commandHistory,
      p.2.status = CmdStatus.pending ∨ p.2.status = CmdStatus.acked := by
  rcases s with ⟨now, cid, cmd⟩ | cid
  · rcases h : lookupNode cmd.nodeId b with _ | node <;>
      simp only [applyCmdStep, publishCommand, h]
    · exact hinv
    · by_cases ht : cmd.topic ∈ node.publishTopics
      · rw [if_pos ht]
        intro p hp
        rcases List.mem_append.mp hp with hold | hnew
        · exact hinv p hold
        · rw [List.mem_singleton.mp hnew]
          left; rfl
      · rw [if_neg ht]; exact hinv
  · rcases h : b.commandHistory.find? (fun p => p.1 = cid) with _ | pr <;>
      simp only [applyCmdStep, commandAckFire, h]
    · exact hinv
    · by_cases hp : pr.2.status = CmdStatus.pending
      · rw [if_pos hp]
        intro p hpm
        rcases List.mem_map.mp hpm with ⟨q, hq, hqe⟩
        by_cases hqc : q.1 = cid
        · rw [← hqe, if_pos hqc]
          right; rfl
        · rw [← hqe, if_neg hqc]
          exact hinv q hq
      · rw [if_neg hp]; exact hinv

theorem runCmdSteps_preserve (l : List CmdStep) :
    ∀ (b : BridgeState),
      (∀ p ∈ b.commandHistory,
        p.2.status = CmdStatus.pending ∨ p.2.status = CmdStatus.acked) →
      ∀ p ∈ (runCmdSteps l b).commandHistory,
        p.2.status = CmdStatus.pending ∨ p.2.status = CmdStatus.acked := by
  induction l with
  | nil => intro b hinv; exact hinv
  | cons s l ih =>
      intro b hinv
      have : runCmdSteps (s :: l) b = runCmdSteps l (applyCmdStep b s) := by
        simp [runCmdSteps]
      rw [this]
      exact ih _ (applyCmdStep_preserve b s hinv)

/-- **C7** (claim theorem): `publishCommand` on a known node with a declared
publish topic creates and stores a `pending` result; the randomized ack
delay `Math.random() * 2000 + 500` lies in [500 ms, 2500 ms); when the
timer fires the stored result transitions to `acked`; and after **any**
sequence of further publishes and timer firings no stored command result
ever has status `failed` or `timeout` (every status is `pending` or
`acked`). -/
theorem ros2_command_lifecycle (now : ℤ) (cid : String) (cmd : ROS2Command)
    (bst : BridgeState) (node : ROS2Node) (r : ℚ) (l : List CmdStep)
    (hnode : lookupNode cmd.nodeId bst = some node)
    (htopic : cmd.topic ∈ node.publishTopics)
    (hfresh : bst.commandHistory.find? (fun p => p.1 = cid) = none)
    (hr0 : 0 ≤ r) (hr1 : r < 1)
    (hinv : ∀ p ∈ bst.commandHistory,
      p.2.status = CmdStatus.pending ∨ p.2.status = CmdStatus.acked) :
    (publishCommand now cid cmd bst).1
      = .ok { commandId := cid, status := CmdStatus.pending, nodeId := cmd.nodeId,
              timestamp := now, error := none } ∧
    (500 ≤ 2000 * r + 500 ∧ 2000 * r + 500 < 2500) ∧
    (commandAckFire cid (publishCommand now cid cmd bst).2).commandHistory.find?
        (fun p => p.1 = cid)
      = some (cid, { commandId := cid, status := CmdStatus.acked, nodeId := cmd.nodeId,
                     timestamp := now, error := none }) ∧
    (∀ p ∈ (runCmdSteps l (publishCommand now cid cmd bst).2).commandHistory,
      p.2.status = CmdStatus.pending ∨ p.2.status = CmdStatus.acked) := by
  have hpub : (publishCommand now cid cmd bst).2
      = { bst with commandHistory := bst.commandHistory ++
            [(cid, { commandId := cid, status := CmdStatus.pending, nodeId := cmd.nodeId,
                     timestamp := now, error := none })] } := by
    simp [publishCommand, hnode, htopic]
  have hfind2 : ((publishCommand now cid cmd bst).2).commandHistory.find?
      (fun p => p.1 = cid)
      = some (cid, { commandId := cid, status := CmdStatus.pending, nodeId := cmd.nodeId,
                     timestamp := now, error := none }) := by
    rw [hpub]
    show (bst.commandHistory ++ _).find? _ = _
    rw [find?_append_of_none _ _ _ hfresh]
    rw [List.find?_cons_of_pos _ (by simp)]
  refine ⟨?_, ⟨by linarith, by linarith⟩, ?_, ?_⟩
  · simp [publishCommand, hnode, htopic]
  · simp only [commandAckFire, hfind2]
    rw [if_pos trivial]
    exact find?_map_replace_self cid _ _ (by rw [hfind2]; rfl)
  · refine runCmdSteps_preserve l _ ?_
    rw [hpub]
    intro p hp
    rcases List.mem_append.mp hp with hold | hnew
    · exact hinv p hold
    · rw [List.mem_singleton.mp hnew]
      left; rfl

/-- **C7** witness: a one-node bridge with publish topic `"/cmd/velocity"`,
`r = 1/2`, and one further timer firing. -/
theorem ros2_command_lifecycle_witness :
    (lookupNode "ns/r1"
        { nodes := [("ns/r1",
            { name := "r1", nspace := "ns", ntype := "robot", location := none,
              subscribeTopics := [], publishTopics := ["/cmd/velocity"], lastSeen := 0,
              health := NodeHealth.ok })],
          telemetryBuffer := [], commandHistory := [] }
       = some { name := "r1", nspace := "ns", ntype := "robot", location := none,
                subscribeTopics := [], publishTopics := ["/cmd/velocity"], lastSeen := 0,
                health := NodeHealth.ok } ∧
     "/cmd/velocity" ∈ ({ name := "r1", nspace := "ns", ntype := "robot", location := none,
                          subscribeTopics := [], publishTopics := ["/cmd/velocity"], lastSeen := 0,
                          health := NodeHealth.ok } : ROS2Node).publishTopics ∧
     (0 : ℚ) ≤ 1/2 ∧ (1/2 : ℚ) < 1) ∧
    ((publishCommand 7 "c1" { nodeId := "ns/r1", topic := "/cmd/velocity", action := "go", priority := "normal" }
        { nodes := [("ns/r1",
            { name := "r1", nspace := "ns", ntype := "robot", location := none,
              subscribeTopics := [], publishTopics := ["/cmd/velocity"], lastSeen := 0,
              health := NodeHealth.ok })],
          telemetryBuffer := [], commandHistory := [] }).1
       = .ok { commandId := "c1", status := CmdStatus.pending, nodeId := "ns/r1",
               timestamp := 7, error := none } ∧
     (500 ≤ 2000 * (1/2 : ℚ) + 500 ∧ 2000 * (1/2 : ℚ) + 500 < 2500) ∧
     (commandAckFire "c1" (publishCommand 7 "c1" { nodeId := "ns/r1", topic := "/cmd/velocity", action := "go", priority := "normal" }
        { nodes := [("ns/r1",
            { name := "r1", nspace := "ns", ntype := "robot", location := none,
              subscribeTopics := [], publishTopics := ["/cmd/velocity"], lastSeen := 0,
              health := NodeHealth.ok })],
          telemetryBuffer := [], commandHistory := [] }).2).commandHistory.find?
        (fun p => p.1 = "c1")
       = some ("c1", { commandId := "c1", status := CmdStatus.acked, nodeId := "ns/r1",
                       timestamp := 7, error := none }) ∧
     (∀ p ∈ (runCmdSteps [CmdStep.fire "c1"]
          (publishCommand 7 "c1" { nodeId := "ns/r1", topic := "/cmd/velocity", action := "go", priority := "normal" }
            { nodes := [("ns/r1",
                { name := "r1", nspace := "ns", ntype := "robot", location := none,
                  subscribeTopics := [], publishTopics := ["/cmd/velocity"], lastSeen := 0,
                  health := NodeHealth.ok })],
              telemetryBuffer := [], commandHistory := [] }).2).commandHistory,
        p.2.status = CmdStatus.pending ∨ p.2.status = CmdStatus.acked)) :=
  ⟨⟨by decide, by decide, by with_unfolding_all decide, by with_unfolding_all decide⟩,
   ros2_command_lifecycle 7 "c1"
     { nodeId := "ns/r1", topic := "/cmd/velocity", action := "go", priority := "normal" }
     { nodes := [("ns/r1",
         { name := "r1", nspace := "ns", ntype := "robot", location := none,
           subscribeTopics := [], publishTopics := ["/cmd/velocity"], lastSeen := 0,
           health := NodeHealth.ok })],
       telemetryBuffer := [], commandHistory := [] }
     { name := "r1", nspace := "ns", ntype := "robot", location := none,
       subscribeTopics := [], publishTopics := ["/cmd/velocity"], lastSeen := 0,
       health := NodeHealth.ok }
     (1/2) [CmdStep.fire "c1"]
     (by decide) (by decide) rfl
     (by with_unfolding_all decide) (by with_unfolding_all decide)
     (by simp)⟩

/-! ## Event bus (`bus = new EventEmitter()` in sse.ts)

The process bus is a bare Node.js `events.EventEmitter`; no module wraps
its listeners in any try/catch.  `emit` invokes the listeners registered
for the type synchronously, in registration order; a listener that throws
propagates its exception out of `emit`, so listeners registered after it
are not invoked.  A listener is modelled by its outcome on an event
(`.ok` or a thrown `.error`); `emitBus` returns the registration indices
of the listeners that were invoked, together with the propagated error,
if any. -/

def emitGo (ev : BusEvent) :
    List (BusEvent → Except String Unit) → ℕ → List ℕ × Option String
  | [], _ => ([], none)
  | h :: hs, i =>
      match h ev with
      | .ok _ => ((emitGo ev hs (i + 1)).1.cons i, (emitGo ev hs (i + 1)).2)
      | .error e => ([i], some e)

/-- `bus.emit("event", ev)` over the registered listener list. -/
def emitBus (hs : List (BusEvent → Except String Unit)) (ev : BusEvent) :
    List ℕ × Option String :=
  emitGo ev hs 0

/-- A listener that always throws (e.g. a subscriber whose SSE socket
write fails). -/
def cexThrowingListener : BusEvent → Except String Unit := fun _ => .error "boom"

/-- A listener that records the event without failing. -/
def cexOkListener : BusEvent → Except String Unit := fun _ => .ok ()

/-- **C4** counterexample: with a throwing listener registered first and a
healthy listener second, `emit` invokes only the first — the second
listener (index 1) never receives the event and the exception propagates
to the publisher; per-listener failures are *not* isolated. -/
theorem bus_throwing_handler_blocks_delivery_cex :
    emitBus [cexThrowingListener, cexOkListener] BusEvent.flowMetricsUpdated
      = ([0], some "boom") ∧
    1 ∉ (emitBus [cexThrowingListener, cexOkListener] BusEvent.flowMetricsUpdated).1 := by
  refine ⟨rfl, ?_⟩
  intro hmem
  rw [show (emitBus [cexThrowingListener, cexOkListener] BusEvent.flowMetricsUpdated).1
        = [0] from rfl] at hmem
  simp at hmem

/-- **C4** (amended claim theorem): dispatch is in registration order and
is aborted by the first listener that throws: every listener before it
receives the event, the thrower itself is invoked, its exception propagates
to `emit`'s caller, and no listener registered after it is invoked. -/
theorem bus_emit_aborts_on_throw (pre post : List (BusEvent → Except String Unit))
    (thrower : BusEvent → Except String Unit) (ev : BusEvent) (e : String)
    (hpre : ∀ h ∈ pre, h ev = .ok ())
    (herr : thrower ev = .error e) :
    emitBus (pre ++ thrower :: post) ev = (List.range (pre.length + 1), some e) := by
  have key : ∀ (pre2 : List (BusEvent → Except String Unit)) (i : ℕ),
      (∀ h ∈ pre2, h ev = .ok ()) →
      emitGo ev (pre2 ++ thrower :: post) i = (List.range' i (pre2.length + 1), some e) := by
    intro pre2
    induction pre2 with
    | nil =>
        intro i _
        show emitGo ev (thrower :: post) i = _
        unfold emitGo
        rw [herr]
        rfl
    | cons h hs ih =>
        intro i hok
        have hh : h ev = .ok () := hok h (List.mem_cons_self h hs)
        show emitGo ev (h :: (hs ++ thrower :: post)) i = _
        unfold emitGo
        rw [hh]
        rw [ih (i + 1) (fun g hg => hok g (List.mem_cons_of_mem h hg))]
        simp [List.range'_succ]
  have h0 := key pre 0 hpre
  rw [emitBus, h0]
  rw [List.range_eq_range']

/-- **C4** witness: one healthy listener, then the thrower, then another
healthy listener — exactly the first two (indices 0 and 1) are invoked. -/
theorem bus_emit_aborts_on_throw_witness :
    (∀ h ∈ [cexOkListener], h BusEvent.flowMetricsUpdated = .ok ()) ∧
    cexThrowingListener BusEvent.flowMetricsUpdated = .error "boom" ∧
    emitBus ([cexOkListener] ++ cexThrowingListener :: [cexOkListener])
        BusEvent.flowMetricsUpdated
      = (List.range (([cexOkListener] : List (BusEvent → Except String Unit)).length + 1),
         some "boom") :=
  ⟨by simp [cexOkListener], rfl,
   bus_emit_aborts_on_throw [cexOkListener] [cexOkListener] cexThrowingListener
     BusEvent.flowMetricsUpdated "boom" (by simp [cexOkListener]) rfl⟩
